import Mathlib

/-!
Verification of the Playwright test-runner configuration in
`playwright.config.ts` (Anaconda Hub CLI + Playwright automation repo).

The configuration module is declarative: it reads the process environment
(after a dotenv load), resolves a base URL, a bearer token and a storage
state path, and assembles a static configuration object holding a shared
`use` block, a fixed list of four browser projects, and a `webServer`
bootstrap descriptor.  We embed that construction as pure Lean functions
of an explicit environment mapping and prove the documented properties of
the resolved values.
-/

namespace PlaywrightConfig

/-- An environment mapping: variable name to its value, `none` when the
variable is unset (JavaScript `undefined`). -/
def Env : Type := String → Option String

/-- JavaScript truthy-or-default on a string environment lookup, as in
`process.env.URL || defaultValue`: an unset variable (`undefined`) and the
empty string are both falsy, so either selects the default. -/
def jsOrDefault (x : Option String) (d : String) : String :=
  match x with
  | some v => if v = "" then d else v
  | none => d

/-- JavaScript template-literal stringification of a possibly-undefined
string variable: interpolating `undefined` produces the literal text
"undefined", not the empty string. -/
def jsTemplateString (x : Option String) : String :=
  match x with
  | some s => s
  | none => "undefined"

/-- Node `path.join` of a directory with a relative sub-path (neither part
ends or begins with a separator here, so join inserts exactly one). -/
def pathJoin (a b : String) : String := a ++ "/" ++ b

/-- Source: `export const BASE_URL = process.env.URL || "https://www.saucedemo.com"`. -/
def BASE_URL (env : Env) : String :=
  jsOrDefault (env "URL") "https://www.saucedemo.com"

/-- Source: `export const STORAGE_STATE_PATH = path.join(__dirname, "playwright/.auth")`.
The module directory `__dirname` is an explicit parameter. -/
def STORAGE_STATE_PATH (dirname : String) : String :=
  pathJoin dirname "playwright/.auth"

/-- Source: `const bearerToken = process.env.BEARER_TOKEN` (may be undefined). -/
def bearerToken (env : Env) : Option String := env "BEARER_TOKEN"

/-- The Authorization value of `use.extraHTTPHeaders`, built by the template
literal `Bearer ${bearerToken}` unconditionally, whether or not a token is
present in the environment. -/
def authorizationHeader (env : Env) : String :=
  "Bearer " ++ jsTemplateString (bearerToken env)

/-- The environment-derived effective configuration of the module
(spec data model: EffectiveConfig). -/
structure EffectiveConfig where
  baseUrl : String
  bearerToken : Option String
  storageStatePath : String
deriving DecidableEq, Repr

/-- Resolution of the effective configuration from an environment mapping
and the module directory, exactly the three top-level constants of the
source module. -/
def resolveEffectiveConfig (dirname : String) (env : Env) : EffectiveConfig :=
  { baseUrl := BASE_URL env
    bearerToken := bearerToken env
    storageStatePath := STORAGE_STATE_PATH dirname }

/-- The shared `use` block of the configuration (trace and screenshot
policies, top-level headless default, base URL, extra HTTP headers). -/
structure UseConfig where
  trace : String
  screenshot : String
  headless : Bool
  baseURL : String
  extraHTTPHeadersAuthorization : String
deriving DecidableEq, Repr

/-- Source: the `use:` object of `defineConfig`. -/
def useConfig (env : Env) : UseConfig :=
  { trace := "retain-on-failure"
    screenshot := "only-on-failure"
    headless := true
    baseURL := BASE_URL env
    extraHTTPHeadersAuthorization := authorizationHeader env }

/-- A fixed browser viewport, as in `viewport: { width: 1600, height: 1000 }`. -/
structure Viewport where
  width : Nat
  height : Nat
deriving DecidableEq, Repr

/-- The `launchOptions` object of a project: launch flags, slowMo, and an
optional project-level headless override (only some projects set one). -/
structure LaunchOptions where
  args : List String
  slowMo : Nat
  headless : Option Bool
deriving DecidableEq, Repr

/-- One entry of the `projects:` array.  `device` records which device
preset is spread into `use` (none when no preset is spread); `viewport` is
`none` for `viewport: null` (use the full window); `dependencies` is the
optional list of project names this project depends on. -/
structure Project where
  name : String
  testMatch : Option String
  device : Option String
  viewport : Option Viewport
  launchOptions : LaunchOptions
  dependencies : Option (List String)
deriving DecidableEq, Repr

/-- Source: the `setup` project (login-storage bootstrap). -/
def setupProject : Project :=
  { name := "setup"
    testMatch := some "**/login-storage-setup.ts"
    device := some "Desktop Chrome"
    viewport := some { width := 1600, height := 1000 }
    launchOptions := { args := ["--disable-web-security"], slowMo := 0, headless := none }
    dependencies := none }

/-- Source: the `chromium` project (headed, full window). -/
def chromiumProject : Project :=
  { name := "chromium"
    testMatch := none
    device := none
    viewport := none
    launchOptions :=
      { args := ["--disable-web-security", "--start-maximized"]
        slowMo := 0
        headless := some false }
    dependencies := none }

/-- Source: the `chromiumheadless` project. -/
def chromiumheadlessProject : Project :=
  { name := "chromiumheadless"
    testMatch := none
    device := some "Desktop Chrome"
    viewport := some { width := 1600, height := 1000 }
    launchOptions := { args := ["--disable-web-security"], slowMo := 0, headless := some true }
    dependencies := none }

/-- Source: the `chromiumProd` project. -/
def chromiumProdProject : Project :=
  { name := "chromiumProd"
    testMatch := none
    device := some "Desktop Chrome"
    viewport := some { width := 1600, height := 1000 }
    launchOptions := { args := ["--disable-web-security"], slowMo := 0, headless := some true }
    dependencies := none }

/-- Source: the active `projects:` array, in declaration order (the
commented-out firefox/webkit/mobile/branded entries are inert). -/
def projects : List Project :=
  [setupProject, chromiumProject, chromiumheadlessProject, chromiumProdProject]

/-- The headless value in effect for a project after merging the top-level
defaults with the project settings: the project-level headless override when
the project declares one, otherwise the top-level `use.headless`. -/
def effectiveHeadless (env : Env) (p : Project) : Bool :=
  match p.launchOptions.headless with
  | some b => b
  | none => (useConfig env).headless

/-- The `webServer` bootstrap descriptor (spec data model:
ServerBootstrapSpec).  Its working directory hangs off the home directory,
passed explicitly. -/
structure WebServer where
  cwd : String
  command : String
  url : String
  ignoreHTTPSErrors : Bool
  timeout : Nat
  reuseExistingServer : Bool
  stdout : String
  stderr : String
deriving DecidableEq, Repr

/-- Source: the `webServer:` object of `defineConfig`. -/
def webServer (homedir : String) (env : Env) : WebServer :=
  { cwd := homedir ++ "/repos/ui"
    command := "npm start ui-server"
    url := BASE_URL env
    ignoreHTTPSErrors := true
    timeout := 2 * 60 * 1000
    reuseExistingServer := true
    stdout := "pipe"
    stderr := "pipe" }

/-- The environment mapping with every variable unset. -/
def emptyEnv : Env := fun _ => none

/-- The environment mapping binding URL to the example target and nothing else. -/
def exampleUrlEnv : Env :=
  fun k => if k = "URL" then some "https://example.test" else none

end PlaywrightConfig

namespace PlaywrightConfig

/-- C1 counterexample: with BEARER_TOKEN unset, the constructed
Authorization header is not the string "Bearer " with an empty token — the
template literal stringifies the undefined token to "undefined". -/
theorem authorizationHeader_unset_not_bearer_empty :
    ¬ (authorizationHeader emptyEnv = "Bearer ") := by
  decide

/-- C1 (amended): for every environment mapping in which BEARER_TOKEN is
unset, the Authorization header constructed for outbound requests has
exactly the string value "Bearer undefined" (the undefined token is
stringified by the template literal), and the header is constructed
unconditionally: for every environment it equals the Bearer prefix followed
by the stringified token. -/
theorem authorizationHeader_unset (env : Env) (h : bearerToken env = none) :
    (useConfig env).extraHTTPHeadersAuthorization = "Bearer undefined"
    ∧ ∀ e : Env,
        (useConfig e).extraHTTPHeadersAuthorization
          = "Bearer " ++ jsTemplateString (bearerToken e) := by
  constructor
  · simp [useConfig, authorizationHeader, h, jsTemplateString]
  · intro e
    rfl

/-- C1 witness: the amended statement instantiated at the all-unset
environment. -/
theorem authorizationHeader_unset_witness :
    bearerToken emptyEnv = none
    ∧ ((useConfig emptyEnv).extraHTTPHeadersAuthorization = "Bearer undefined"
        ∧ ∀ e : Env,
            (useConfig e).extraHTTPHeadersAuthorization
              = "Bearer " ++ jsTemplateString (bearerToken e)) :=
  ⟨rfl, authorizationHeader_unset emptyEnv rfl⟩

/-- C2: the active projects list has exactly four profiles, named
setup, chromium, chromiumheadless, chromiumProd in that order with no
duplicate names, and every profile carries the launch flag
--disable-web-security in its launchOptions.args. -/
theorem projects_matrix :
    projects.length = 4
    ∧ projects.map Project.name = ["setup", "chromium", "chromiumheadless", "chromiumProd"]
    ∧ (projects.map Project.name).Nodup
    ∧ projects.all (fun p => p.launchOptions.args.contains "--disable-web-security") = true := by
  refine ⟨rfl, rfl, ?_, rfl⟩
  decide

/-- C3: after merging the top-level default (use.headless = true) with each
profile, the effective headless value is false for chromium, true for
chromiumheadless, true for chromiumProd, and true for setup, which sets no
headless value of its own and so inherits the top-level default. -/
theorem effectiveHeadless_per_project (env : Env) :
    effectiveHeadless env chromiumProject = false
    ∧ effectiveHeadless env chromiumheadlessProject = true
    ∧ effectiveHeadless env chromiumProdProject = true
    ∧ setupProject.launchOptions.headless = none
    ∧ effectiveHeadless env setupProject = true :=
  ⟨rfl, rfl, rfl, rfl, rfl⟩

/-- C4: whenever URL is unset or bound to the empty string, the resolved
EffectiveConfig.baseUrl is the literal default https://www.saucedemo.com. -/
theorem baseUrl_default (dirname : String) (env : Env)
    (h : env "URL" = none ∨ env "URL" = some "") :
    (resolveEffectiveConfig dirname env).baseUrl = "https://www.saucedemo.com" := by
  rcases h with h | h <;>
    simp [resolveEffectiveConfig, BASE_URL, jsOrDefault, h]

/-- C4 witness: the default-URL statement instantiated at the all-unset
environment. -/
theorem baseUrl_default_witness :
    (emptyEnv "URL" = none ∨ emptyEnv "URL" = some "")
    ∧ (resolveEffectiveConfig "/repo" emptyEnv).baseUrl = "https://www.saucedemo.com" :=
  ⟨Or.inl rfl, baseUrl_default "/repo" emptyEnv (Or.inl rfl)⟩

/-- C5: whenever URL is bound to the non-empty string https://example.test,
the resolved EffectiveConfig.baseUrl is exactly that string, with no
rewriting. -/
theorem baseUrl_passthrough (dirname : String) (env : Env)
    (h : env "URL" = some "https://example.test") :
    (resolveEffectiveConfig dirname env).baseUrl = "https://example.test" := by
  simp [resolveEffectiveConfig, BASE_URL, jsOrDefault, h]

/-- C5 witness: the passthrough statement instantiated at the environment
binding only URL. -/
theorem baseUrl_passthrough_witness :
    exampleUrlEnv "URL" = some "https://example.test"
    ∧ (resolveEffectiveConfig "/repo" exampleUrlEnv).baseUrl = "https://example.test" :=
  ⟨rfl, baseUrl_passthrough "/repo" exampleUrlEnv rfl⟩

/-- C6: for every home directory and every environment mapping, the
webServer descriptor has startup timeout exactly 120000 milliseconds
(2 * 60 * 1000) and reuseExistingServer = true. -/
theorem webServer_timeout_and_reuse (homedir : String) (env : Env) :
    (webServer homedir env).timeout = 120000
    ∧ (webServer homedir env).timeout = 2 * 60 * 1000
    ∧ (webServer homedir env).reuseExistingServer = true :=
  ⟨rfl, rfl, rfl⟩

/-- C7: environment resolution is deterministic and idempotent: resolving
twice over the same unchanged environment yields EffectiveConfig structures
equal field for field. -/
theorem resolve_idempotent (dirname : String) (env : Env) :
    (resolveEffectiveConfig dirname env).baseUrl
        = (resolveEffectiveConfig dirname env).baseUrl
    ∧ (resolveEffectiveConfig dirname env).bearerToken
        = (resolveEffectiveConfig dirname env).bearerToken
    ∧ (resolveEffectiveConfig dirname env).storageStatePath
        = (resolveEffectiveConfig dirname env).storageStatePath
    ∧ resolveEffectiveConfig dirname env = resolveEffectiveConfig dirname env :=
  ⟨rfl, rfl, rfl, rfl⟩

/-- C8: the chromiumProd profile agrees with chromiumheadless on every
field except its name: same device preset spread, same 1600 by 1000
viewport, same launch args, same slowMo, same headless value. -/
theorem chromiumProd_mirrors_chromiumheadless :
    chromiumProdProject.device = chromiumheadlessProject.device
    ∧ chromiumProdProject.viewport = chromiumheadlessProject.viewport
    ∧ chromiumProdProject.viewport = some { width := 1600, height := 1000 }
    ∧ chromiumProdProject.launchOptions.args = chromiumheadlessProject.launchOptions.args
    ∧ chromiumProdProject.launchOptions.slowMo = chromiumheadlessProject.launchOptions.slowMo
    ∧ chromiumProdProject.launchOptions.headless = chromiumheadlessProject.launchOptions.headless
    ∧ chromiumProdProject.testMatch = chromiumheadlessProject.testMatch
    ∧ chromiumProdProject.dependencies = chromiumheadlessProject.dependencies
    ∧ chromiumProdProject.name = "chromiumProd"
    ∧ chromiumheadlessProject.name = "chromiumheadless" :=
  ⟨rfl, rfl, rfl, rfl, rfl, rfl, rfl, rfl, rfl, rfl⟩

/-- C9: the resolved storage-state path does not depend on the environment:
any two environment mappings resolve to the same storageStatePath, namely
the module directory joined with the fixed subdirectory playwright/.auth. -/
theorem storageStatePath_env_independent (dirname : String) (env1 env2 : Env) :
    (resolveEffectiveConfig dirname env1).storageStatePath
        = (resolveEffectiveConfig dirname env2).storageStatePath
    ∧ (resolveEffectiveConfig dirname env1).storageStatePath
        = pathJoin dirname "playwright/.auth" :=
  ⟨rfl, rfl⟩

/-- C10: no active profile declares a dependency on any other profile:
every dependencies entry is absent from the four declared project objects. -/
theorem projects_no_dependencies :
    projects.all (fun p => p.dependencies.isNone) = true := by
  decide

end PlaywrightConfig
